import Mathlib

/-!
# Verification of the distributed AI inference platform core

Shallow embedding of the platform's Go sources and proofs of the spec's
claims about them.  The embedding covers:

* the batch-worker storage layer (`internal/storage/postgres.go`);
* the batch-worker pool (`internal/worker/pool.go`, "part_005"): item
  dispatch, ordered result aggregation, manifest upload and terminal
  status selection;
* the Kafka consumer (`internal/consumer/kafka.go`, "part_002");
* the model router and its per-backend circuit breaker
  (`model-router/internal/router/router.go`, using `sony/gobreaker`);
* the route handler (`model-router/internal/handlers`) and the gateway's
  inference handlers (`api-gateway/internal/handlers/inference.go`);
* the rate-limit middleware (`api-gateway/internal/middleware/ratelimit.go`);
* the MinIO object-store client (`internal/storage/minio.go`).

Concurrency is linearized: the worker pool's completion order is an
explicit parameter (a permutation of the input indices), matching the
channel semantics in which every dispatched item produces exactly one
result.  Go `time.Time`/`time.Duration` values are modelled as integer
nanosecond counts, with the zero time as `none`.  Go `float64` values
(progress fractions, the breaker's failure ratio) are modelled as exact
rationals; for the small counts arising here the float comparison in the
source agrees with the exact one.  Opaque JSON payloads
(`map[string]interface{}`) are modelled as association lists of strings.
-/

namespace AIPlatform

/-- Opaque JSON object payload (`map[string]interface{}` in the source). -/
abbrev JsonObj := List (String × String)

/-! ## Batch-worker storage layer (`internal/storage/postgres.go`) -/

/-- Job status values `StatusPending`, `StatusProcessing`,
`StatusCompleted`, `StatusFailed`. -/
inductive JobStatus where
  | statusPending
  | statusProcessing
  | statusCompleted
  | statusFailed
deriving DecidableEq, Repr

/-- The `BatchJob` record (`storage.BatchJob`).  Timestamps are dropped
except for `completedAt`, kept as a presence flag because the spec's
terminal-state invariant mentions it. -/
structure BatchJob where
  id : String
  model : String
  version : String
  inputs : List JsonObj
  status : JobStatus
  progress : Rat
  totalItems : Nat
  completed : Nat
  resultURL : String
  errorMsg : String
  completedAt : Bool
deriving DecidableEq, Repr

/-- The `batch_jobs` table, keyed by the primary key `id`.  Rows are kept
in insertion order. -/
structure JobStore where
  jobs : List (String × BatchJob)
deriving DecidableEq, Repr

/-- `CreateJob`: an SQL `INSERT` on the primary key `id`; a duplicate id
violates the primary-key constraint and returns an error, leaving the
table unchanged. -/
def JobStore.createJob (s : JobStore) (job : BatchJob) : Except String JobStore :=
  if (s.jobs.lookup job.id).isSome then
    .error "failed to create job: duplicate key value violates unique constraint"
  else
    .ok ⟨s.jobs ++ [(job.id, job)]⟩

/-- `UpdateJobProgress`: `UPDATE batch_jobs SET completed, progress WHERE id`.
Rows whose key does not match are untouched; a missing id is a no-op. -/
def JobStore.updateJobProgress (s : JobStore) (jobID : String)
    (completed : Nat) (progress : Rat) : JobStore :=
  ⟨s.jobs.map fun kv =>
    if kv.1 = jobID then
      (kv.1, { kv.2 with completed := completed, progress := progress })
    else kv⟩

/-- The row rewrite performed by `UpdateJobStatus`: replace status, result
URL and error message, setting `completed_at` exactly when the new status
is `StatusCompleted` or `StatusFailed`. -/
def applyStatus (status : JobStatus) (resultURL errorMsg : String)
    (r : BatchJob) : BatchJob :=
  { r with
    status := status, resultURL := resultURL, errorMsg := errorMsg,
    completedAt :=
      status = JobStatus.statusCompleted ∨ status = JobStatus.statusFailed }

/-- `UpdateJobStatus`: `UPDATE batch_jobs SET status, result_url, error_msg,
completed_at WHERE id`. -/
def JobStore.updateJobStatus (s : JobStore) (jobID : String)
    (status : JobStatus) (resultURL errorMsg : String) : JobStore :=
  ⟨s.jobs.map fun kv =>
    if kv.1 = jobID then (kv.1, applyStatus status resultURL errorMsg kv.2)
    else kv⟩

/-- `GetJob`: `SELECT ... WHERE id`; `sql.ErrNoRows` becomes an error. -/
def JobStore.getJob (s : JobStore) (jobID : String) : Except String BatchJob :=
  match s.jobs.lookup jobID with
  | some job => .ok job
  | none => .error ("job not found: " ++ jobID)

/-! ## Worker pool (`internal/worker/pool.go`) -/

deriving instance DecidableEq for Except

/-- Outcome of one HTTP round trip from a worker to the orchestrator:
either a transport error from `httpClient.Do`, or a response with a
status code whose body either decodes to a prediction or fails to
decode. -/
inductive HttpOutcome where
  | transportErr (msg : String)
  | resp (status : Nat) (body : Except String JsonObj)
deriving DecidableEq, Repr

/-- `worker.InferenceResult`: the per-item record.  `error = ""` encodes
the absent `error` field, as in the Go zero value. -/
structure InferenceResult where
  input : JsonObj
  prediction : JsonObj
  latency : Int
  error : String
deriving DecidableEq, Repr

/-- `processInference` (pool.go lines 236-295): every return site copies
the original input into the result; errors are non-empty prefixed
strings, success leaves `error` empty.  The `json.Marshal` and
`http.NewRequestWithContext` failure branches cannot occur for the
well-formed requests built here and are not modelled; both also copy the
input. -/
def processInference (outcome : HttpOutcome) (input : JsonObj)
    (latency : Int) : InferenceResult :=
  match outcome with
  | .transportErr msg =>
      { input := input, prediction := [], latency := latency,
        error := "request failed: " ++ msg }
  | .resp status body =>
      if status ≠ 200 then
        { input := input, prediction := [], latency := latency,
          error := "inference failed with status " ++ toString status }
      else
        match body with
        | .error msg =>
            { input := input, prediction := [], latency := latency,
              error := "failed to decode response: " ++ msg }
        | .ok pred =>
            { input := input, prediction := pred, latency := latency,
              error := "" }

/-- One element of the uploaded manifest (`resultData`, pool.go lines
130-139): the `error` key is present exactly when the item's error
string is non-empty. -/
structure ResultEntry where
  input : JsonObj
  prediction : JsonObj
  latency : Int
  error : Option String
deriving DecidableEq, Repr

/-- Build the manifest entry from an `InferenceResult` (pool.go lines
130-139). -/
def toResultEntry (r : InferenceResult) : ResultEntry :=
  { input := r.input, prediction := r.prediction, latency := r.latency,
    error := if r.error = "" then none else some r.error }

/-- State threaded through the result-collection loop of `ProcessJob`
(pool.go lines 115-156): the job store (receiving progress checkpoints),
the index-addressed result buffer, and the `completed` / `errorCount`
counters. -/
structure DrainState where
  store : JobStore
  results : List (Option ResultEntry)
  completed : Nat
  errorCount : Nat
deriving DecidableEq, Repr

/-- One iteration of the result-collection loop (pool.go lines 125-156):
increment `completed`, compute the progress fraction, count an error when
the item's error string is non-empty, write the entry at the item's
original index, and checkpoint progress every `max(1, total/10)`
completions and at the end. -/
def drainStep (job : BatchJob) (st : DrainState)
    (arrival : Nat × InferenceResult) : DrainState :=
  let completed := st.completed + 1
  let progress : Rat := (completed : Rat) / (job.totalItems : Rat)
  let entry := toResultEntry arrival.2
  let errorCount :=
    if arrival.2.error = "" then st.errorCount else st.errorCount + 1
  let results := st.results.set arrival.1 (some entry)
  let store :=
    if completed % max 1 (job.totalItems / 10) = 0 ∨ completed = job.totalItems
    then st.store.updateJobProgress job.id completed progress
    else st.store
  { store := store, results := results,
    completed := completed, errorCount := errorCount }

/-- World state seen by the pool: the Postgres job table plus the log of
`UploadResults` calls made against the MinIO store (job id and the raw
result buffer passed). -/
structure World where
  store : JobStore
  uploadCalls : List (String × List (Option ResultEntry))
deriving DecidableEq, Repr

/-- The dispatch-and-collect phase of `Pool.ProcessJob` (pool.go lines
77-156), linearized: set status `processing`, then fold the result
stream over the collection loop.  `outcome` and `latency` give each
item's backend round trip; `order` is the order in which item results
arrive on the result channel — any permutation of the input indices,
since every dispatched item yields exactly one result. -/
def drainOf (outcome : Nat → HttpOutcome) (latency : Nat → Int)
    (order : List Nat) (w : World) (job : BatchJob) : DrainState :=
  (order.map fun i =>
      (i, processInference (outcome i) (job.inputs.getD i []) (latency i))).foldl
    (drainStep job)
    { store := w.store.updateJobStatus job.id .statusProcessing "" "",
      results := List.replicate job.inputs.length none,
      completed := 0, errorCount := 0 }

/-- `Pool.ProcessJob` (pool.go lines 70-192), linearized.  `upload` is
the outcome of the single `UploadResults` call.

Steps, in source order: set status `processing`; drain the result channel
into the index-addressed buffer, counting errors and checkpointing
progress (`drainOf`); call `UploadResults` once (on failure, set status
`failed` with the error text and return the error); otherwise pick
`completed` as the final status, overridden to `failed` when every item
errored, with an error summary `"E/N items failed"` whenever some item
errored. -/
def ProcessJob (outcome : Nat → HttpOutcome) (latency : Nat → Int)
    (upload : Except String String) (order : List Nat)
    (w : World) (job : BatchJob) : World × Except String Unit :=
  let st := drainOf outcome latency order w job
  let calls := w.uploadCalls ++ [(job.id, st.results)]
  match upload with
  | .error e =>
      let store2 := st.store.updateJobStatus job.id .statusFailed "" e
      (⟨store2, calls⟩, .error ("failed to upload results: " ++ e))
  | .ok url =>
      let finalStatus :=
        if st.errorCount > 0 ∧ st.errorCount = job.totalItems then
          JobStatus.statusFailed
        else JobStatus.statusCompleted
      let errorMsg :=
        if st.errorCount > 0 then
          toString st.errorCount ++ "/" ++ toString job.totalItems
            ++ " items failed"
        else ""
      let store2 := st.store.updateJobStatus job.id finalStatus url errorMsg
      (⟨store2, calls⟩, .ok ())

/-! ## Kafka consumer (`internal/consumer/kafka.go`) -/

/-- A parsed batch-job descriptor (the fields `ConsumeClaim` extracts
from the Kafka message value, kafka.go lines 134-146). -/
structure JobMessage where
  jobId : String
  model : String
  version : String
  inputs : List JsonObj
deriving DecidableEq, Repr

/-- Handling of one Kafka message by `ConsumeClaim` (kafka.go lines
113-177).  A message that fails to unmarshal is acknowledged and dropped.
Otherwise the consumer builds a `pending` job record with
`TotalItems = len(inputs)`, inserts it with `CreateJob` — acknowledging
and skipping the message when the insert fails — and then runs the worker
pool on it (the pool's own error is only logged). -/
def handleMessage (outcome : Nat → HttpOutcome) (latency : Nat → Int)
    (upload : Except String String) (order : List Nat)
    (w : World) (msg : Except String JobMessage) : World :=
  match msg with
  | .error _ => w
  | .ok m =>
      let job : BatchJob :=
        { id := m.jobId, model := m.model, version := m.version,
          inputs := m.inputs, status := .statusPending, progress := 0,
          totalItems := m.inputs.length, completed := 0,
          resultURL := "", errorMsg := "", completedAt := false }
      match w.store.createJob job with
      | .error _ => w
      | .ok store1 =>
          (ProcessJob outcome latency upload order { w with store := store1 } job).1

/-! ## Circuit breaker (`sony/gobreaker`, configured in router.go lines 56-65)

The breaker is embedded from the `gobreaker` library as instantiated by
`RegisterBackend`: `MaxRequests: 3`, `Interval: 10 s`, `Timeout: 30 s`,
and the custom `ReadyToTrip` requiring at least 3 requests and a failure
ratio of at least 0.6.  Time is an integer nanosecond count; the Go zero
time is `none`. -/

/-- Nanoseconds in one second (`time.Second`). -/
def nsPerSecond : Int := 1000000000

/-- `gobreaker.Counts`. -/
structure CBCounts where
  requests : Nat
  totalSuccesses : Nat
  totalFailures : Nat
  consecutiveSuccesses : Nat
  consecutiveFailures : Nat
deriving DecidableEq, Repr

/-- `Counts.clear`. -/
def CBCounts.clear : CBCounts := ⟨0, 0, 0, 0, 0⟩

/-- `Counts.onRequest`. -/
def CBCounts.onRequest (c : CBCounts) : CBCounts :=
  { c with requests := c.requests + 1 }

/-- `Counts.onSuccess`. -/
def CBCounts.onSuccess (c : CBCounts) : CBCounts :=
  { c with totalSuccesses := c.totalSuccesses + 1,
           consecutiveSuccesses := c.consecutiveSuccesses + 1,
           consecutiveFailures := 0 }

/-- `Counts.onFailure`. -/
def CBCounts.onFailure (c : CBCounts) : CBCounts :=
  { c with totalFailures := c.totalFailures + 1,
           consecutiveFailures := c.consecutiveFailures + 1,
           consecutiveSuccesses := 0 }

/-- `gobreaker.State`. -/
inductive CBState where
  | stateClosed
  | stateHalfOpen
  | stateOpen
deriving DecidableEq, Repr

/-- `gobreaker.CircuitBreaker` mutable state: current state, counters,
generation number and the expiry clock. -/
structure Breaker where
  state : CBState
  counts : CBCounts
  generation : Nat
  expiry : Option Int
deriving DecidableEq, Repr

/-- `MaxRequests: 3` (router.go line 58). -/
def cbMaxRequests : Nat := 3

/-- `Interval: 10 * time.Second` (router.go line 59). -/
def cbInterval : Int := 10 * nsPerSecond

/-- `Timeout: 30 * time.Second` (router.go line 60). -/
def cbTimeout : Int := 30 * nsPerSecond

/-- The custom `ReadyToTrip` (router.go lines 61-64): at least 3 requests
and `TotalFailures/Requests >= 0.6`.  The `float64` ratio comparison is
modelled exactly as `10 * TotalFailures >= 6 * Requests`; for the integer
counts reachable here the two agree. -/
def readyToTrip (c : CBCounts) : Bool :=
  decide (3 ≤ c.requests) && decide (6 * c.requests ≤ 10 * c.totalFailures)

/-- `toNewGeneration`: bump the generation, clear the counters, and set
the expiry clock from the current state (closed: end of the rolling
interval; open: end of the open duration; half-open: never). -/
def Breaker.toNewGeneration (b : Breaker) (now : Option Int) : Breaker :=
  let expiry :=
    match b.state with
    | .stateClosed => some ((now.getD 0) + cbInterval)
    | .stateOpen => some ((now.getD 0) + cbTimeout)
    | .stateHalfOpen => none
  { b with generation := b.generation + 1, counts := CBCounts.clear,
           expiry := expiry }

/-- `setState`: switch states (no-op when equal) and start a new
generation. -/
def Breaker.setState (b : Breaker) (s : CBState) (now : Option Int) : Breaker :=
  if b.state = s then b
  else Breaker.toNewGeneration { b with state := s } now

/-- `NewCircuitBreaker`: starts closed with cleared counters;
`toNewGeneration` is called at the zero time, so the first closed window
expires `Interval` after the zero time. -/
def newBreaker : Breaker :=
  Breaker.toNewGeneration
    { state := .stateClosed, counts := CBCounts.clear, generation := 0,
      expiry := none } none

/-- `currentState`: in `closed`, roll the counting window when it has
expired; in `open`, move to `half-open` once the open duration has
elapsed.  Returns the state and generation after the check. -/
def Breaker.currentState (b : Breaker) (now : Int) : Breaker × CBState × Nat :=
  let b' :=
    match b.state with
    | .stateClosed =>
        match b.expiry with
        | some e => if e < now then b.toNewGeneration (some now) else b
        | none => b
    | .stateOpen =>
        match b.expiry with
        | some e => if e < now then b.setState .stateHalfOpen (some now) else b
        | none => b.setState .stateHalfOpen (some now)
    | .stateHalfOpen => b
  (b', b'.state, b'.generation)

/-- `ErrOpenState`. -/
def errOpenState : String := "circuit breaker is open"

/-- `ErrTooManyRequests`. -/
def errTooManyRequests : String := "too many requests"

/-- `beforeRequest`: fail fast in `open`; in `half-open` admit at most
`MaxRequests` concurrent trials; otherwise count the request and return
the generation. -/
def Breaker.beforeRequest (b : Breaker) (now : Int) :
    Breaker × Except String Nat :=
  let (b', state, generation) := b.currentState now
  match state with
  | .stateOpen => (b', .error errOpenState)
  | .stateHalfOpen =>
      if cbMaxRequests ≤ b'.counts.requests then
        (b', .error errTooManyRequests)
      else
        ({ b' with counts := b'.counts.onRequest }, .ok generation)
  | .stateClosed =>
      ({ b' with counts := b'.counts.onRequest }, .ok generation)

/-- `onSuccess`. -/
def Breaker.onSuccess (b : Breaker) (now : Int) : Breaker :=
  match b.state with
  | .stateClosed => { b with counts := b.counts.onSuccess }
  | .stateHalfOpen =>
      let b' := { b with counts := b.counts.onSuccess }
      if cbMaxRequests ≤ b'.counts.consecutiveSuccesses then
        b'.setState .stateClosed (some now)
      else b'
  | .stateOpen => b

/-- `onFailure`: in `closed`, count the failure and trip to `open` when
`ReadyToTrip` holds; in `half-open`, re-open immediately. -/
def Breaker.onFailure (b : Breaker) (now : Int) : Breaker :=
  match b.state with
  | .stateClosed =>
      let b' := { b with counts := b.counts.onFailure }
      if readyToTrip b'.counts then b'.setState .stateOpen (some now) else b'
  | .stateHalfOpen => b.setState .stateOpen (some now)
  | .stateOpen => b

/-- `afterRequest`: ignore results from an older generation, then record
success or failure. -/
def Breaker.afterRequest (b : Breaker) (before : Nat) (success : Bool)
    (now : Int) : Breaker :=
  let (b', _, generation) := b.currentState now
  if generation ≠ before then b'
  else if success then b'.onSuccess now else b'.onFailure now

/-- `CircuitBreaker.Execute`: run `beforeRequest`, invoke the protected
call when admitted, and record the outcome.  `isSuccessful` is the
default: the call succeeded iff it returned no error.  The call is
modelled as its result `req`; `now` is the (single) instant of the
execution. -/
def Breaker.execute (b : Breaker) (now : Int) (req : Except String JsonObj) :
    Breaker × Except String JsonObj :=
  let (b1, gres) := b.beforeRequest now
  match gres with
  | .error e => (b1, .error e)
  | .ok generation =>
      (b1.afterRequest generation req.isOk now, req)

/-! ## Model router (`model-router/internal/router/router.go`) -/

/-- `router.Backend`: target address, breaker, liveness flag, last-probe
time and observed latency. -/
structure Backend where
  url : String
  circuitBreaker : Breaker
  healthStatus : Bool
  lastCheck : Option Int
  avgLatency : Int
deriving DecidableEq, Repr

/-- `router.ModelRouter.backends`: the nested Go map
`model -> version -> []*Backend`, as nested association lists. -/
structure ModelRouter where
  backends : List (String × List (String × List Backend))
deriving DecidableEq, Repr

/-- Go map assignment `m[k] = v`: replace the existing entry or add one. -/
def alistSet {β : Type} (l : List (String × β)) (k : String) (v : β) :
    List (String × β) :=
  if (l.lookup k).isSome then
    l.map fun kv => if kv.1 = k then (kv.1, v) else kv
  else l ++ [(k, v)]

/-- `NewModelRouter`: empty registry. -/
def newModelRouter : ModelRouter := ⟨[]⟩

/-- `RegisterBackend` (router.go lines 48-80): build a fresh breaker and
a live backend record, and append it to `backends[model][version]`
unconditionally — the source performs no duplicate-target check. -/
def ModelRouter.registerBackend (r : ModelRouter)
    (model version url : String) (now : Int) : ModelRouter :=
  let versions := (r.backends.lookup model).getD []
  let entry := (versions.lookup version).getD []
  let backend : Backend :=
    { url := url, circuitBreaker := newBreaker, healthStatus := true,
      lastCheck := some now, avgLatency := 0 }
  ⟨alistSet r.backends model (alistSet versions version (entry ++ [backend]))⟩

/-- The backend list registered under `(model, version)` (empty when the
key is absent, like a nil Go slice). -/
def ModelRouter.backendsOf (r : ModelRouter) (model version : String) :
    List Backend :=
  (((r.backends.lookup model).getD []).lookup version).getD []

/-- `executeRequest` (router.go lines 120-168) as a function of the
backend's HTTP outcome: a transport error is returned as-is, any
response with a status other than 200 becomes the error
`"backend returned status %d: %s"`, an undecodable body is an error, and
only a decoded 200 response is a success. -/
def executeRequest (outcome : HttpOutcome) (rawBody : String) :
    Except String JsonObj :=
  match outcome with
  | .transportErr msg => .error msg
  | .resp status body =>
      if status ≠ 200 then
        .error ("backend returned status " ++ toString status ++ ": " ++ rawBody)
      else
        match body with
        | .error msg => .error msg
        | .ok result => .ok result

/-- Errors surfaced by `RouteRequest`. -/
def errModelNotFound (model : String) : String := "model not found: " ++ model

/-- `"version not found: %s/%s"`. -/
def errVersionNotFound (model version : String) : String :=
  "version not found: " ++ model ++ "/" ++ version

/-- `RouteRequest` (router.go lines 83-111): look up the model, then the
version (an absent or empty backend list is `version not found`), select
a backend by `rand.Intn` — the random draw is the parameter `sel`, taken
modulo the list length — and execute the call through that backend's
breaker.  Returns the updated registry (the selected backend's breaker
mutates in place) together with the result. -/
def ModelRouter.routeRequest (r : ModelRouter) (model version : String)
    (sel : Nat) (now : Int) (outcome : HttpOutcome) (rawBody : String) :
    ModelRouter × Except String JsonObj :=
  match r.backends.lookup model with
  | none => (r, .error (errModelNotFound model))
  | some versions =>
      match versions.lookup version with
      | none => (r, .error (errVersionNotFound model version))
      | some backends =>
          if backends.length = 0 then
            (r, .error (errVersionNotFound model version))
          else
            let idx := sel % backends.length
            let chosen := backends.getD idx ⟨"", newBreaker, true, none, 0⟩
            let (cb', result) :=
              chosen.circuitBreaker.execute now (executeRequest outcome rawBody)
            let backends' := backends.set idx { chosen with circuitBreaker := cb' }
            (⟨alistSet r.backends model (alistSet versions version backends')⟩,
             result)

/-! ## Route handler (`model-router/internal/handlers`, "part_006") -/

/-- An HTTP response as (status code, body rendered as a JSON object). -/
structure HttpReply where
  status : Nat
  body : JsonObj
deriving DecidableEq, Repr

/-- The parsed `RouteRequest` body.  Gin's `binding:"required"` rejects a
missing or empty `model` string and a missing (`null`) `input` map. -/
structure RouteBody where
  requestId : String
  model : Option String
  version : Option String
  input : Option JsonObj
deriving DecidableEq, Repr

/-- `ShouldBindJSON` validation for `RouteBody`: `required` on a string
fails on the zero value `""`; `required` on a map fails only on nil. -/
def bindRouteBody (b : RouteBody) : Except String (String × String × JsonObj) :=
  match b.model, b.input with
  | some m, some inp =>
      if m = "" then .error "invalid request" else .ok (m, (b.version.getD ""), inp)
  | _, _ => .error "invalid request"

/-- `RouteHandler.RouteInference` ("part_006" lines 147-172): 400 on a
binding failure; default the version to `"v1"`; forward to
`RouteRequest`; ANY routing error — including `model not found` — is
mapped to HTTP 503 with the error text; success is 200. -/
def routeInference (r : ModelRouter) (b : RouteBody) (sel : Nat) (now : Int)
    (outcome : HttpOutcome) (rawBody : String) : ModelRouter × HttpReply :=
  match bindRouteBody b with
  | .error _ => (r, ⟨400, [("error", "invalid request")]⟩)
  | .ok (model, v0, _inp) =>
      let version := if v0 = "" then "v1" else v0
      let (r', result) := r.routeRequest model version sel now outcome rawBody
      match result with
      | .error e => (r', ⟨503, [("error", e)]⟩)
      | .ok res => (r', ⟨200, res⟩)

/-! ## Gateway handlers (`api-gateway/internal/handlers/inference.go`) -/

/-- The parsed `/v1/infer` body (`InferenceRequest`): `model` and `input`
carry `binding:"required"`. -/
structure InferBody where
  model : Option String
  version : Option String
  input : Option JsonObj
deriving DecidableEq, Repr

/-- `ShouldBindJSON` validation for `InferBody`. -/
def bindInferBody (b : InferBody) : Except String (String × String × JsonObj) :=
  match b.model, b.input with
  | some m, some inp =>
      if m = "" then .error "invalid request" else .ok (m, (b.version.getD ""), inp)
  | _, _ => .error "invalid request"

/-- `RealTimeInference` (inference.go lines 90-194) composed with the
model-router's `/v1/route` handler: 400 on a binding failure; default the
version to `"v1"`; forward to the router and mirror a non-200 router
status back to the client with body `{"error": "inference failed"}`
(inference.go lines 161-168); on 200, wrap the router's payload in the
`InferenceResponse`. -/
def realTimeInference (r : ModelRouter) (b : InferBody) (requestId : String)
    (sel : Nat) (now : Int) (outcome : HttpOutcome) (rawBody : String)
    (latency : Int) : ModelRouter × HttpReply :=
  match bindInferBody b with
  | .error _ => (r, ⟨400, [("error", "invalid request")]⟩)
  | .ok (model, v0, input) =>
      let version := if v0 = "" then "v1" else v0
      let routeBody : RouteBody :=
        { requestId := requestId, model := some model,
          version := some version, input := some input }
      let (r', reply) := routeInference r routeBody sel now outcome rawBody
      if reply.status ≠ 200 then
        (r', ⟨reply.status, [("error", "inference failed")]⟩)
      else
        (r', ⟨200, [("request_id", requestId), ("model", model),
                    ("version", version), ("latency_ms", toString latency)]
                   ++ reply.body⟩)

/-- The parsed `/v1/batch` body (`BatchInferenceRequest`): `model` and
`inputs` carry `binding:"required"`.  Gin's validator implements
`required` for a slice as a nil check only, so a present-but-empty
`"inputs": []` array passes validation. -/
structure BatchBody where
  model : Option String
  version : Option String
  inputs : Option (List JsonObj)
deriving DecidableEq, Repr

/-- `ShouldBindJSON` validation for `BatchBody`: `model` must be present
and non-empty; `inputs` must be non-nil (present, possibly empty). -/
def bindBatchBody (b : BatchBody) :
    Except String (String × String × List JsonObj) :=
  match b.model, b.inputs with
  | some m, some l =>
      if m = "" then .error "invalid request" else .ok (m, (b.version.getD ""), l)
  | _, _ => .error "invalid request"

/-- Result of one `/v1/batch` call: the HTTP reply and the job
descriptors durably published to the Kafka topic. -/
structure BatchSubmitOutcome where
  reply : HttpReply
  published : List JobMessage
deriving DecidableEq, Repr

/-- `BatchInference` (inference.go lines 197-273): 400 on a binding
failure with nothing published; otherwise default the version, build the
descriptor `{job_id, model, version, inputs, created_at}` and publish it
to Kafka — a producer failure is a 500 with nothing durably recorded; on
success reply 202 with `{job_id, status: "pending"}`.  No length check
is performed on `inputs`. -/
def batchInference (jobID : String) (produceOk : Bool) (b : BatchBody) :
    BatchSubmitOutcome :=
  match bindBatchBody b with
  | .error _ => ⟨⟨400, [("error", "invalid request")]⟩, []⟩
  | .ok (model, v0, inputs) =>
      let version := if v0 = "" then "v1" else v0
      let msg : JobMessage :=
        { jobId := jobID, model := model, version := version, inputs := inputs }
      if produceOk then
        ⟨⟨202, [("job_id", jobID), ("status", "pending")]⟩, [msg]⟩
      else
        ⟨⟨500, [("error", "failed to submit job")]⟩, []⟩

/-! ## Rate-limit middleware (`api-gateway/internal/middleware/ratelimit.go`) -/

/-- Outcome of the rate-limit middleware for one request: whether the
request continues down the chain (`c.Next()`), the rejection reply if
any, and the rate-limit headers set. -/
structure RateLimitOutcome where
  allowed : Bool
  reply : Option HttpReply
  headers : List (String × String)
deriving DecidableEq, Repr

/-- `RateLimit` (ratelimit.go lines 14-59) for one request, as a function
of the Redis `INCR` result.  An `INCR` error admits the request with no
headers (fail open, lines 26-31).  Otherwise a count above the limit is
rejected with 429 and zeroed headers; an admitted request gets the
limit/remaining headers. -/
def rateLimit (limit : Nat) (resetAt : Int) (incrResult : Except String Nat) :
    RateLimitOutcome :=
  match incrResult with
  | .error _ => { allowed := true, reply := none, headers := [] }
  | .ok count =>
      if count > limit then
        { allowed := false,
          reply := some ⟨429, [("error", "rate limit exceeded")]⟩,
          headers := [("X-RateLimit-Limit", toString limit),
                      ("X-RateLimit-Remaining", "0"),
                      ("X-RateLimit-Reset", toString resetAt)] }
      else
        { allowed := true, reply := none,
          headers := [("X-RateLimit-Limit", toString limit),
                      ("X-RateLimit-Remaining", toString (limit - count))] }

/-! ## MinIO object store (`internal/storage/minio.go`) -/

/-- The expiry argument passed to `PresignedGetObject` by
`UploadResults` (minio.go line 399): the Go expression `7*24*3600` is an
untyped constant converted to `time.Duration`, whose unit is the
nanosecond — so the value is 604800 ns, not 7 days. -/
def presignExpiry : Int := 7 * 24 * 3600

/-- Seven days expressed in `time.Duration` nanoseconds
(`7 * 24 * time.Hour`), what the comment "valid for 7 days" intends. -/
def sevenDaysNs : Int := 7 * 24 * 3600 * nsPerSecond

/-- minio-go's expiry validation (`isValidExpiry`): a presign expiry
must be at least 1 second and at most 7 days. -/
def isValidExpiry (expires : Int) : Except String Unit :=
  if expires / nsPerSecond < 1 then
    .error "Expires cannot be lesser than 1 second."
  else if 604800 < expires / nsPerSecond then
    .error "Expires cannot be greater than 7 days."
  else .ok ()

/-- `MinIOStore.UploadResults` (minio.go lines 372-411): serialize and
`PutObject` the manifest (outcome `putOutcome`), then request a presigned
GET URL with expiry `presignExpiry`; minio-go validates the expiry before
signing, so an invalid expiry fails the upload.  `signedURL` is the URL
the signer would return for a valid expiry. -/
def minioUploadResults (jobID : String) (results : List (Option ResultEntry))
    (putOutcome : Except String Unit) (signedURL : String) :
    Except String String :=
  match putOutcome with
  | .error e => .error ("failed to upload results: " ++ e)
  | .ok _ =>
      match isValidExpiry presignExpiry with
      | .error e => .error ("failed to generate presigned URL: " ++ e)
      | .ok _ => .ok signedURL

/-! ## Concrete instances

Concrete jobs, worlds and requests used to witness or refute the claims.
Each claim has its own instances. -/

/-- A two-item pending job (claim C1). -/
def jobC1 : BatchJob :=
  { id := "job-c1", model := "resnet18", version := "v1",
    inputs := [[("data", "1")], [("data", "2")]],
    status := .statusPending, progress := 0, totalItems := 2, completed := 0,
    resultURL := "", errorMsg := "", completedAt := false }

/-- Backend behaviour for C1: item 0 succeeds, item 1 returns 500. -/
def outcomeC1 : Nat → HttpOutcome := fun i =>
  if i = 0 then .resp 200 (.ok [("prediction", "0.9")]) else .resp 500 (.ok [])

/-- World holding `jobC1` (claim C1). -/
def worldC1 : World := ⟨⟨[("job-c1", jobC1)]⟩, []⟩

/-- The world after the pool drains `jobC1` (claim C1). -/
def runC1 : World :=
  (ProcessJob outcomeC1 (fun _ => 5) (.ok "https://minio/results/job-c1.json")
    [0, 1] worldC1 jobC1).1

/-- A three-item pending job (claim C2). -/
def jobC2 : BatchJob :=
  { id := "job-c2", model := "resnet18", version := "v1",
    inputs := [[("data", "1")], [("data", "2")], [("data", "3")]],
    status := .statusPending, progress := 0, totalItems := 3, completed := 0,
    resultURL := "", errorMsg := "", completedAt := false }

/-- A zero-item job as produced by the consumer from a descriptor with an
empty `inputs` array (claim C3). -/
def jobC3 : BatchJob :=
  { id := "job-c3", model := "resnet18", version := "v1", inputs := [],
    status := .statusPending, progress := 0, totalItems := 0, completed := 0,
    resultURL := "", errorMsg := "", completedAt := false }

/-- World holding `jobC3` (claim C3). -/
def worldC3 : World := ⟨⟨[("job-c3", jobC3)]⟩, []⟩

/-- The world after the pool drains the zero-item `jobC3` (claim C3). -/
def runC3 : World :=
  (ProcessJob (fun _ => .resp 200 (.ok [])) (fun _ => 0) (.ok "u3") []
    worldC3 jobC3).1

/-- A one-item job already in the terminal state `completed` (claim C5). -/
def jobC5 : BatchJob :=
  { id := "job-c5", model := "resnet18", version := "v1",
    inputs := [[("data", "1")]],
    status := .statusCompleted, progress := 1, totalItems := 1, completed := 1,
    resultURL := "u0", errorMsg := "", completedAt := true }

/-- World holding the terminal `jobC5` (claim C5). -/
def worldC5 : World := ⟨⟨[("job-c5", jobC5)]⟩, []⟩

/-- The world after invoking the executor on the already-terminal `jobC5`
(claim C5). -/
def runC5 : World :=
  (ProcessJob (fun _ => .resp 500 (.ok [])) (fun _ => 1) (.ok "u1") [0]
    worldC5 jobC5).1

/-- A redelivered descriptor for the already-stored `jobC5` (claim C5). -/
def msgC5 : JobMessage :=
  { jobId := "job-c5", model := "resnet18", version := "v1",
    inputs := [[("data", "1")]] }

/-- The router-call result for a backend 400 response (claim C4). -/
def resp400 : Except String JsonObj := executeRequest (.resp 400 (.ok [])) "Bad Request"

/-- Breaker and result after one 400 response through a fresh breaker
(claim C4). -/
def breakerRun1 : Breaker × Except String JsonObj := newBreaker.execute 0 resp400

/-- Breaker after two 400 responses (claim C4). -/
def breakerRun2 : Breaker × Except String JsonObj := breakerRun1.1.execute 0 resp400

/-- Breaker after three 400 responses (claim C4). -/
def breakerRun3 : Breaker × Except String JsonObj := breakerRun2.1.execute 0 resp400

/-- A `/v1/batch` body with a present but empty `inputs` array (claim C6). -/
def emptyInputsBody : BatchBody :=
  { model := some "resnet18", version := none, inputs := some [] }

/-- A well-formed `/v1/infer` body naming an unregistered model (claim C7). -/
def unknownModelBody : InferBody :=
  { model := some "nope", version := some "v1", input := some [("data", "1")] }

/-- The registry after registering the same target twice under one
(model, version) key (claim C8). -/
def routerTwice : ModelRouter :=
  ((newModelRouter.registerBackend "resnet18" "v1" "http://backend1:8082" 0).registerBackend
    "resnet18" "v1" "http://backend1:8082" 0)

/-- A one-item pending job used to witness the amended C1. -/
def jobC1w : BatchJob :=
  { id := "job-c1w", model := "resnet18", version := "v1",
    inputs := [[("data", "1")]],
    status := .statusPending, progress := 0, totalItems := 1, completed := 0,
    resultURL := "", errorMsg := "", completedAt := false }

/-- World holding `jobC1w`. -/
def worldC1w : World := ⟨⟨[("job-c1w", jobC1w)]⟩, []⟩

/-- The stored record after the amended-C1 witness run. -/
def recC1w : BatchJob :=
  { id := "job-c1w", model := "resnet18", version := "v1",
    inputs := [[("data", "1")]], status := .statusCompleted, progress := 0,
    totalItems := 1, completed := 0, resultURL := "u", errorMsg := "",
    completedAt := true }

/-- A two-item pending job used to witness the amended C3. -/
def jobC3w : BatchJob :=
  { id := "job-c3w", model := "resnet18", version := "v1",
    inputs := [[("data", "1")], [("data", "2")]],
    status := .statusPending, progress := 0, totalItems := 2, completed := 0,
    resultURL := "", errorMsg := "", completedAt := false }

/-- Backend behaviour for the amended C3 witness: item 0 returns 500,
item 1 succeeds. -/
def outcomeC3w : Nat → HttpOutcome := fun i =>
  if i = 0 then .resp 500 (.ok []) else .resp 200 (.ok [("p", "1")])

/-- World holding `jobC3w`. -/
def worldC3w : World := ⟨⟨[("job-c3w", jobC3w)]⟩, []⟩

/-- World used by the C2 witness: empty store, empty upload log. -/
def worldC2 : World := ⟨⟨[]⟩, []⟩

/-- Number of items of a job that error, judged from each item's backend
round trip (claim C3). -/
def erroredCount (outcome : Nat → HttpOutcome) (latency : Nat → Int)
    (job : BatchJob) : Nat :=
  (List.range job.inputs.length).countP fun i =>
    !((processInference (outcome i) (job.inputs.getD i []) (latency i)).error == "")

/-! ## Supporting lemmas -/

/-- `List.lookup` after a keyed in-place update touches only the looked-up
entry. -/
theorem lookup_map_update {β : Type} (f : β → β) (k : String) (l : List (String × β)) :
    (l.map fun kv => if kv.1 = k then (kv.1, f kv.2) else kv).lookup k
      = (l.lookup k).map f := by
  induction l with
  | nil => rfl
  | cons hd tl ih =>
      obtain ⟨a, b⟩ := hd
      by_cases h : a = k
      · subst h
        simp [List.lookup_cons, ih]
      · have hne : ¬ (k == a) = true := by simp [Ne.symm h]
        simp [List.lookup_cons, if_neg h, hne, ih]

/-- `List.lookup` after a keyed constant overwrite. -/
theorem lookup_map_set {β : Type} (v : β) (k : String) (l : List (String × β)) :
    (l.map fun kv => if kv.1 = k then (kv.1, v) else kv).lookup k
      = (l.lookup k).map fun _ => v :=
  lookup_map_update (fun _ => v) k l

/-- Looking up a key absent from the left part of an append. -/
theorem lookup_append_of_not_left {β : Type} {k : String} :
    ∀ {l₁ : List (String × β)} (l₂ : List (String × β)),
      l₁.lookup k = none → (l₁ ++ l₂).lookup k = l₂.lookup k := by
  intro l₁
  induction l₁ with
  | nil => intro l₂ _; rfl
  | cons hd tl ih =>
      intro l₂ h
      obtain ⟨a, b⟩ := hd
      rw [List.lookup_cons] at h
      rw [List.cons_append, List.lookup_cons]
      cases hab : (k == a) with
      | true => rw [hab] at h; exact absurd h (by simp)
      | false => rw [hab] at h; exact ih l₂ h

/-- `alistSet` makes the assigned key map to the assigned value. -/
theorem lookup_alistSet {β : Type} (l : List (String × β)) (k : String) (v : β) :
    (alistSet l k v).lookup k = some v := by
  unfold alistSet
  by_cases h : (l.lookup k).isSome
  · rw [if_pos h, lookup_map_set]
    obtain ⟨w, hw⟩ := Option.isSome_iff_exists.mp h
    rw [hw]; rfl
  · rw [if_neg h]
    rw [lookup_append_of_not_left _ (Option.not_isSome_iff_eq_none.mp h)]
    simp [List.lookup_cons]

/-- Reading a job after `updateJobStatus` returns the stored record with
the status, result URL, error message and completion flag replaced. -/
theorem getJob_updateJobStatus (s : JobStore) (jobID : String)
    (status : JobStatus) (url msg : String) :
    (s.updateJobStatus jobID status url msg).getJob jobID
      = (s.getJob jobID).map (applyStatus status url msg) := by
  unfold JobStore.updateJobStatus JobStore.getJob
  rw [lookup_map_update (applyStatus status url msg)]
  cases s.jobs.lookup jobID <;> rfl

/-- The result buffer after the collection loop is the word-for-word fold
of index writes: the loop's store checkpoints and counters do not feed
back into the buffer. -/
theorem drain_results (job : BatchJob) :
    ∀ (l : List (Nat × InferenceResult)) (st : DrainState),
      (l.foldl (drainStep job) st).results
        = l.foldl (fun buf a => buf.set a.1 (some (toResultEntry a.2))) st.results := by
  intro l
  induction l with
  | nil => intro st; rfl
  | cons a l ih =>
      intro st
      rw [List.foldl_cons, List.foldl_cons, ih]
      rfl

/-- The loop's error counter counts exactly the arrivals whose error
string is non-empty. -/
theorem drain_errorCount (job : BatchJob) :
    ∀ (l : List (Nat × InferenceResult)) (st : DrainState),
      (l.foldl (drainStep job) st).errorCount
        = st.errorCount + l.countP (fun a => !(a.2.error == "")) := by
  intro l
  induction l with
  | nil => intro st; simp
  | cons a l ih =>
      intro st
      rw [List.foldl_cons, ih, List.countP_cons]
      have hstep : (drainStep job st a).errorCount
          = if a.2.error = "" then st.errorCount else st.errorCount + 1 := rfl
      rw [hstep]
      by_cases h : a.2.error = "" <;> simp [h] <;> omega

/-- A fold of index writes leaves the buffer length unchanged. -/
theorem foldl_set_length {α : Type} (v : Nat → α) :
    ∀ (order : List Nat) (init : List (Option α)),
      (order.foldl (fun acc j => acc.set j (some (v j))) init).length
        = init.length := by
  intro order
  induction order with
  | nil => intro init; rfl
  | cons j rest ih =>
      intro init
      rw [List.foldl_cons, ih, List.length_set]

/-- Contents of a buffer after a fold of index writes: every in-range
index that was written holds its (index-determined) value, everything
else is untouched. -/
theorem foldl_set_getElem {α : Type} (v : Nat → α) :
    ∀ (order : List Nat) (init : List (Option α)) (i : Nat),
      (order.foldl (fun acc j => acc.set j (some (v j))) init)[i]?
        = if i ∈ order ∧ i < init.length then some (some (v i)) else init[i]? := by
  intro order
  induction order with
  | nil => intro init i; simp
  | cons j rest ih =>
      intro init i
      rw [List.foldl_cons, ih, List.length_set]
      by_cases hmem : i ∈ rest
      · have : i ∈ j :: rest := List.mem_cons_of_mem _ hmem
        by_cases hlen : i < init.length
        · simp [hmem, hlen, this]
        · simp only [hmem, hlen, and_false, if_neg, not_false_eq_true, this,
            and_true, false_and]
          rw [List.getElem?_set]
          have hnone : init[i]? = none :=
            List.getElem?_eq_none (Nat.le_of_not_lt hlen)
          by_cases hji : j = i
          · subst hji; simp [hlen, hnone]
          · simp [hji, hnone]
      · by_cases hji : j = i
        · subst hji
          have hmemc : j ∈ j :: rest := List.mem_cons_self _ _
          simp only [hmem, false_and, if_neg, not_false_eq_true, hmemc, true_and]
          rw [List.getElem?_set]
          by_cases hlen : j < init.length
          · simp [hlen]
          · simp [hlen, List.getElem?_eq_none (Nat.le_of_not_lt hlen)]
        · have hnotc : ¬ i ∈ j :: rest := by
            intro hc
            rcases List.mem_cons.mp hc with h | h
            · exact hji h.symm
            · exact hmem h
          simp only [hmem, false_and, if_neg, not_false_eq_true, hnotc]
          rw [List.getElem?_set_ne hji]

/-- `processInference` copies the original input into the result at every
return site. -/
theorem processInference_input (o : HttpOutcome) (inp : JsonObj) (lat : Int) :
    (processInference o inp lat).input = inp := by
  unfold processInference
  cases o with
  | transportErr m => rfl
  | resp s body =>
      dsimp only
      split
      · rfl
      · cases body <;> rfl

/-- Reading back a job after the final `updateJobStatus` gives a record
carrying exactly the written status, result URL and error message. -/
theorem map_applyStatus_ok {s : JobStore} {jobID : String} {status : JobStatus}
    {url msg : String} {r : BatchJob}
    (h : (s.updateJobStatus jobID status url msg).getJob jobID = .ok r) :
    r.status = status ∧ r.resultURL = url ∧ r.errorMsg = msg := by
  rw [getJob_updateJobStatus] at h
  cases hg : s.getJob jobID with
  | ok r0 =>
      rw [hg] at h
      cases h
      exact ⟨rfl, rfl, rfl⟩
  | error e =>
      rw [hg] at h
      exact Except.noConfusion h

/-- The final store written by `ProcessJob` when the upload succeeds. -/
theorem ProcessJob_ok_store (outcome : Nat → HttpOutcome) (latency : Nat → Int)
    (u : String) (order : List Nat) (w : World) (job : BatchJob) :
    (ProcessJob outcome latency (.ok u) order w job).1.store
      = (drainOf outcome latency order w job).store.updateJobStatus job.id
          (if (drainOf outcome latency order w job).errorCount > 0 ∧
              (drainOf outcome latency order w job).errorCount = job.totalItems
           then .statusFailed else .statusCompleted)
          u
          (if (drainOf outcome latency order w job).errorCount > 0 then
            toString (drainOf outcome latency order w job).errorCount ++ "/"
              ++ toString job.totalItems ++ " items failed"
           else "") := rfl

/-- The upload log after a `ProcessJob` run with a successful upload:
exactly one `UploadResults` call, passing the drained result buffer. -/
theorem ProcessJob_ok_uploadCalls (outcome : Nat → HttpOutcome)
    (latency : Nat → Int) (u : String) (order : List Nat) (w : World)
    (job : BatchJob) :
    (ProcessJob outcome latency (.ok u) order w job).1.uploadCalls
      = w.uploadCalls
        ++ [(job.id, (drainOf outcome latency order w job).results)] := rfl

/-- The final store written by `ProcessJob` when the upload fails. -/
theorem ProcessJob_err_store (outcome : Nat → HttpOutcome) (latency : Nat → Int)
    (e : String) (order : List Nat) (w : World) (job : BatchJob) :
    (ProcessJob outcome latency (.error e) order w job).1.store
      = (drainOf outcome latency order w job).store.updateJobStatus job.id
          .statusFailed "" e := rfl

/-- The error counter of the drain phase counts, over the arrival order,
the items whose round trip errored. -/
theorem drainOf_errorCount (outcome : Nat → HttpOutcome) (latency : Nat → Int)
    (order : List Nat) (w : World) (job : BatchJob) :
    (drainOf outcome latency order w job).errorCount
      = order.countP fun i =>
          !((processInference (outcome i) (job.inputs.getD i []) (latency i)).error
              == "") := by
  unfold drainOf
  rw [drain_errorCount]
  rw [List.countP_map]
  show 0 + _ = _
  rw [Nat.zero_add]
  rfl

/-- When the arrival order is a permutation of the input indices, the
drain phase counts exactly the errored items of the job. -/
theorem drainOf_errorCount_perm (outcome : Nat → HttpOutcome)
    (latency : Nat → Int) (order : List Nat) (w : World) (job : BatchJob)
    (hperm : order.Perm (List.range job.inputs.length)) :
    (drainOf outcome latency order w job).errorCount
      = erroredCount outcome latency job := by
  rw [drainOf_errorCount, hperm.countP_eq]
  rfl

/-- The drained result buffer is the fold of index writes over the
arrival order, starting from an all-`none` buffer of the input length. -/
theorem drainOf_results (outcome : Nat → HttpOutcome) (latency : Nat → Int)
    (order : List Nat) (w : World) (job : BatchJob) :
    (drainOf outcome latency order w job).results
      = order.foldl
          (fun buf j => buf.set j (some (toResultEntry
            (processInference (outcome j) (job.inputs.getD j []) (latency j)))))
          (List.replicate job.inputs.length none) := by
  unfold drainOf
  rw [drain_results]
  rw [List.foldl_map]

/-- An `"E/N items failed"` summary is never the empty string. -/
theorem summary_ne_empty (a b : Nat) :
    toString a ++ "/" ++ toString b ++ " items failed" ≠ "" := by
  intro h
  have hlen := congrArg String.length h
  simp only [String.length_append] at hlen
  have h13 : (" items failed" : String).length = 13 := rfl
  have h0 : ("" : String).length = 0 := rfl
  omega

/-! ## Claims -/

/-- **C10.** If the throttling counter increment against the rate-limit
store fails, the gateway admits the request without counting it (fail
open): a rate-limit-store failure never produces an HTTP 429 rejection —
the request passes through with no rejection reply and no headers. -/
theorem rateLimit_fail_open (limit : Nat) (resetAt : Int) (e : String) :
    rateLimit limit resetAt (.error e)
      = { allowed := true, reply := none, headers := [] } := rfl

/-- **C9.** The expiry `UploadResults` passes to `PresignedGetObject` is
the untyped Go constant `7*24*3600` converted to `time.Duration`, i.e.
604800 **nanoseconds**, not the 7 days (604800 s) the code's own comment
and the spec state; minio-go rejects presign expiries under one second,
so generating the retrieval reference fails for every job. -/
theorem presign_expiry_bug :
    presignExpiry ≠ sevenDaysNs ∧ presignExpiry < nsPerSecond ∧
    ∀ (jobID : String) (results : List (Option ResultEntry)) (url : String),
      minioUploadResults jobID results (.ok ()) url
        = .error
          "failed to generate presigned URL: Expires cannot be lesser than 1 second." :=
  ⟨by decide, by decide, fun _ _ _ => rfl⟩

/-- **C6** (counterexample).  A batch submission with a present but
*empty* `inputs` array passes gin's `binding:"required"` (which only
rejects a nil slice), is admitted with HTTP 202, and its zero-item
descriptor is published to the log — not the 400 rejection the claim
states. -/
theorem batch_empty_inputs_admitted :
    batchInference "job-b1" true emptyInputsBody
      = ⟨⟨202, [("job_id", "job-b1"), ("status", "pending")]⟩,
         [{ jobId := "job-b1", model := "resnet18", version := "v1",
            inputs := [] }]⟩
    ∧ (batchInference "job-b1" true emptyInputsBody).reply.status ≠ 400
    ∧ (batchInference "job-b1" true emptyInputsBody).published ≠ [] :=
  ⟨rfl, by decide, by decide⟩

/-- **C6** (amended).  A batch submission whose `inputs` field is absent
or null fails `binding:"required"` and is rejected at admission with HTTP
400, publishing no job descriptor; a present-but-empty `inputs` array,
however, is admitted (202) and published with zero items. -/
theorem batch_missing_inputs_rejected (jobID : String) (produceOk : Bool)
    (model version : Option String) :
    batchInference jobID produceOk
        { model := model, version := version, inputs := none }
      = ⟨⟨400, [("error", "invalid request")]⟩, []⟩ := by
  cases model <;> rfl

/-- **C8** (counterexample).  Registering the same target twice under one
(model, version) key leaves the endpoint list with that target **twice**:
`RegisterBackend` is not idempotent on duplicate targets, and a
subsequent lookup contains the target with multiplicity 2. -/
theorem register_duplicate_target :
    (routerTwice.backendsOf "resnet18" "v1").map Backend.url
        = ["http://backend1:8082", "http://backend1:8082"]
    ∧ ((routerTwice.backendsOf "resnet18" "v1").map Backend.url).count
        "http://backend1:8082" = 2 :=
  ⟨rfl, rfl⟩

/-- **C8** (amended).  `RegisterBackend` appends a fresh endpoint for the
target unconditionally — it performs no duplicate-target check, so
registering the same target twice under one (model, version) key yields
an endpoint list containing the target twice. -/
theorem registerBackend_appends (r : ModelRouter) (model version url : String)
    (now : Int) :
    (r.registerBackend model version url now).backendsOf model version
      = r.backendsOf model version
        ++ [{ url := url, circuitBreaker := newBreaker, healthStatus := true,
              lastCheck := some now, avgLatency := 0 }] := by
  unfold ModelRouter.registerBackend ModelRouter.backendsOf
  dsimp only
  rw [lookup_alistSet]
  dsimp only [Option.getD_some]
  rw [lookup_alistSet]
  rfl

/-- **C7** (counterexample).  With an empty registry, a synchronous
inference request naming an unknown model is surfaced to the client as
HTTP **503**, not 404: the route handler maps every `RouteRequest` error
— including `model not found` — to 503, and the gateway mirrors the
router's status code. -/
theorem unknown_model_not_404 :
    (realTimeInference newModelRouter unknownModelBody "req-1" 0 0
        (.resp 200 (.ok [])) "" 7).2
      = ⟨503, [("error", "inference failed")]⟩
    ∧ (503 : Nat) ≠ 404 :=
  ⟨rfl, by decide⟩

/-- **C4** (counterexample).  A backend 400 response — a
client-attributable failure — is returned as an error by
`executeRequest` and therefore counted by the endpoint's circuit
breaker: one 400 through a fresh breaker increments `TotalFailures` from
0 to 1, and three 400s satisfy the trip predicate and open the
breaker. -/
theorem breaker_counts_4xx :
    resp400 = .error "backend returned status 400: Bad Request"
    ∧ breakerRun1.1.counts.totalFailures = newBreaker.counts.totalFailures + 1
    ∧ breakerRun1.2 = .error "backend returned status 400: Bad Request"
    ∧ breakerRun3.1.state = .stateOpen :=
  ⟨rfl, rfl, rfl, rfl⟩

/-- **C5** (counterexample).  Invoking the executor for a job whose
stored record is already terminal (`completed`) is **not** a no-op:
`ProcessJob` performs no terminal-state check, re-runs the job from
zero, writes a manifest to the object store, and overwrites the stored
record — here flipping it from `completed` to `failed`. -/
theorem terminal_rerun_not_noop :
    (runC5.store.getJob "job-c5").toOption.map
        (fun r => (r.status, r.resultURL, r.errorMsg, r.completedAt))
      = some (.statusFailed, "u1", "1/1 items failed", true)
    ∧ (runC5.store.getJob "job-c5").toOption.map BatchJob.status
        ≠ (worldC5.store.getJob "job-c5").toOption.map BatchJob.status
    ∧ runC5.uploadCalls ≠ [] :=
  ⟨by decide, by decide, by decide⟩

/-- **C5** (amended).  Redelivery of a descriptor for a job id already
present in the store is a no-op one level up, in the consumer:
`ConsumeClaim` re-inserts the job with `CreateJob`, whose primary-key
conflict fails for a duplicate id, so the executor is never invoked and
the world (job store and object store) is unchanged.  The executor
itself, invoked directly, restarts any job from zero. -/
theorem redelivered_job_noop (outcome : Nat → HttpOutcome)
    (latency : Nat → Int) (upload : Except String String) (order : List Nat)
    (w : World) (m : JobMessage)
    (hdup : (w.store.jobs.lookup m.jobId).isSome) :
    handleMessage outcome latency upload order w (.ok m) = w := by
  unfold handleMessage JobStore.createJob
  simp [hdup]

/-- Witness for the amended C5: redelivering `msgC5` to the world already
holding `jobC5` changes nothing. -/
theorem redelivered_job_noop_witness :
    handleMessage (fun _ => .resp 500 (.ok [])) (fun _ => 1) (.ok "u1") [0]
      worldC5 (.ok msgC5) = worldC5 :=
  redelivered_job_noop _ _ _ _ worldC5 msgC5 (by decide)

/-- **C1** (counterexample).  A job that completes with a partial failure
(1 of 2 items errored) is stored as `completed` with **both** terminal
fields set: the result-manifest reference and the error summary
`"1/2 items failed"` — refuting "never both". -/
theorem completed_with_error_summary :
    (runC1.store.getJob "job-c1").toOption.map
        (fun r => (r.status, r.resultURL, r.errorMsg, r.completedAt))
      = some (.statusCompleted, "https://minio/results/job-c1.json",
              "1/2 items failed", true)
    ∧ ("1/2 items failed" : String) ≠ ""
    ∧ ("https://minio/results/job-c1.json" : String) ≠ "" :=
  ⟨by decide, by decide, by decide⟩

/-- **C3** (counterexample).  Draining a job with N = 0 items (all of
whose zero items errored, so E = N) sets the final status to
`completed`, not `failed`: the source only fails the job when
`errorCount > 0`. -/
theorem zero_item_job_completes :
    (runC3.store.getJob "job-c3").toOption.map
        (fun r => (r.status, r.resultURL, r.errorMsg, r.completedAt))
      = some (.statusCompleted, "u3", "", true)
    ∧ erroredCount (fun _ => .resp 200 (.ok [])) (fun _ => 0) jobC3
        = jobC3.totalItems
    ∧ (JobStatus.statusCompleted ≠ JobStatus.statusFailed) :=
  ⟨by decide, by decide, by decide⟩

/-- **C1** (amended).  Every job driven to a terminal state by the pool
has at least the matching terminal field set — status `completed` implies
a non-empty result-manifest reference, status `failed` implies a
non-empty error summary; never neither.  (Both fields may be set at
once: a partial failure completes with an error summary, and an
all-items-failed job that uploads its manifest carries both.) -/
theorem terminal_fields_cover (outcome : Nat → HttpOutcome)
    (latency : Nat → Int) (upload : Except String String) (order : List Nat)
    (w : World) (job : BatchJob)
    (hok : ∀ u, upload = .ok u → u ≠ "")
    (herr : ∀ e, upload = .error e → e ≠ "") :
    ∀ r, (ProcessJob outcome latency upload order w job).1.store.getJob job.id
          = .ok r →
      (r.status = .statusCompleted ∨ r.status = .statusFailed)
      ∧ (r.status = .statusCompleted → r.resultURL ≠ "")
      ∧ (r.status = .statusFailed → r.errorMsg ≠ "") := by
  intro r hr
  cases upload with
  | error e =>
      rw [ProcessJob_err_store] at hr
      obtain ⟨hst, hurl, hmsg⟩ := map_applyStatus_ok hr
      refine ⟨Or.inr hst, ?_, ?_⟩
      · intro hc
        rw [hst] at hc
        exact absurd hc (by decide)
      · intro _
        rw [hmsg]
        exact herr e rfl
  | ok u =>
      rw [ProcessJob_ok_store] at hr
      obtain ⟨hst, hurl, hmsg⟩ := map_applyStatus_ok hr
      refine ⟨?_, ?_, ?_⟩
      · by_cases hE : (drainOf outcome latency order w job).errorCount > 0 ∧
            (drainOf outcome latency order w job).errorCount = job.totalItems
        · right; rwa [if_pos hE] at hst
        · left; rwa [if_neg hE] at hst
      · intro _
        rw [hurl]
        exact hok u rfl
      · intro hfail
        by_cases hE : (drainOf outcome latency order w job).errorCount > 0 ∧
            (drainOf outcome latency order w job).errorCount = job.totalItems
        · rw [hmsg, if_pos hE.1]
          exact summary_ne_empty _ _
        · rw [if_neg hE] at hst
          rw [hst] at hfail
          exact absurd hfail (by decide)

/-- Witness for the amended C1: a concrete one-item run lands on a
`completed` record with a non-empty manifest reference. -/
theorem terminal_fields_cover_witness :
    (recC1w.status = .statusCompleted ∨ recC1w.status = .statusFailed)
    ∧ (recC1w.status = .statusCompleted → recC1w.resultURL ≠ "")
    ∧ (recC1w.status = .statusFailed → recC1w.errorMsg ≠ "") :=
  terminal_fields_cover (fun _ => .resp 200 (.ok [])) (fun _ => 5) (.ok "u")
    [] worldC1w jobC1w
    (fun u hu => by cases hu; decide)
    (fun e he => Except.noConfusion he)
    recC1w (by decide)

/-- **C2.**  For every job the pool completes, the uploaded manifest has
exactly one entry per input, and the entry at position `i` carries the
original input `i` — regardless of the order in which workers finish
items (any permutation of the input indices). -/
theorem manifest_preserves_input_order (outcome : Nat → HttpOutcome)
    (latency : Nat → Int) (u : String) (order : List Nat) (w : World)
    (job : BatchJob)
    (hperm : order.Perm (List.range job.inputs.length)) :
    ∃ M, (ProcessJob outcome latency (.ok u) order w job).1.uploadCalls
          = w.uploadCalls ++ [(job.id, M)]
      ∧ M.length = job.inputs.length
      ∧ ∀ i, i < job.inputs.length →
          ∃ e, M[i]? = some (some e) ∧ e.input = job.inputs.getD i [] := by
  refine ⟨(drainOf outcome latency order w job).results,
    ProcessJob_ok_uploadCalls outcome latency u order w job, ?_, ?_⟩
  · rw [drainOf_results, foldl_set_length, List.length_replicate]
  · intro i hi
    refine ⟨toResultEntry
      (processInference (outcome i) (job.inputs.getD i []) (latency i)), ?_, ?_⟩
    · rw [drainOf_results, foldl_set_getElem]
      have hmem : i ∈ order := hperm.mem_iff.mpr (List.mem_range.mpr hi)
      rw [if_pos ⟨hmem, by rwa [List.length_replicate]⟩]
    · show (toResultEntry _).input = _
      rw [show ∀ x, (toResultEntry x).input = x.input from fun _ => rfl,
        processInference_input]

/-- Witness for C2: a three-item job whose results arrive in the order
2, 0, 1 still uploads a manifest aligned with the input order. -/
theorem manifest_preserves_input_order_witness :
    ∃ M, (ProcessJob (fun _ => .resp 200 (.ok [("p", "1")])) (fun _ => 3)
            (.ok "u") [2, 0, 1] worldC2 jobC2).1.uploadCalls
          = worldC2.uploadCalls ++ [(jobC2.id, M)]
      ∧ M.length = jobC2.inputs.length
      ∧ ∀ i, i < jobC2.inputs.length →
          ∃ e, M[i]? = some (some e) ∧ e.input = jobC2.inputs.getD i [] :=
  manifest_preserves_input_order (fun _ => .resp 200 (.ok [("p", "1")]))
    (fun _ => 3) "u" [2, 0, 1] worldC2 jobC2 (by decide)

/-- **C3** (amended).  When the pool drains a job with `N` items of which
`E` errored and the manifest upload succeeds, it uploads the manifest
exactly once and sets the final status to `completed` whenever `E < N` —
with error summary `"E/N items failed"` exactly when `0 < E` — and to
`failed` exactly when `0 < E = N`.  (A job with `N = 0` therefore
completes; the claim's "failed exactly when E = N" fails at `N = 0`.) -/
theorem drain_terminal_status (outcome : Nat → HttpOutcome)
    (latency : Nat → Int) (u : String) (order : List Nat) (w : World)
    (job : BatchJob)
    (hperm : order.Perm (List.range job.inputs.length))
    (htot : job.totalItems = job.inputs.length) :
    (∃ M, (ProcessJob outcome latency (.ok u) order w job).1.uploadCalls
        = w.uploadCalls ++ [(job.id, M)])
    ∧ ∀ r, (ProcessJob outcome latency (.ok u) order w job).1.store.getJob job.id
            = .ok r →
        r.resultURL = u
        ∧ (r.status = .statusFailed ↔
            erroredCount outcome latency job > 0 ∧
            erroredCount outcome latency job = job.inputs.length)
        ∧ (erroredCount outcome latency job < job.inputs.length →
            r.status = .statusCompleted)
        ∧ r.errorMsg
            = (if erroredCount outcome latency job > 0 then
                toString (erroredCount outcome latency job) ++ "/"
                  ++ toString job.totalItems ++ " items failed"
               else "") := by
  refine ⟨⟨(drainOf outcome latency order w job).results,
    ProcessJob_ok_uploadCalls outcome latency u order w job⟩, ?_⟩
  intro r hr
  rw [ProcessJob_ok_store] at hr
  obtain ⟨hst, hurl, hmsg⟩ := map_applyStatus_ok hr
  rw [drainOf_errorCount_perm outcome latency order w job hperm] at hst hmsg
  rw [htot] at hst
  refine ⟨hurl, ?_, ?_, hmsg⟩
  · constructor
    · intro hfail
      by_cases hc : erroredCount outcome latency job > 0 ∧
          erroredCount outcome latency job = job.inputs.length
      · exact hc
      · rw [if_neg hc] at hst
        rw [hst] at hfail
        exact absurd hfail (by decide)
    · intro hc
      rwa [if_pos hc] at hst
  · intro hlt
    have hnc : ¬ (erroredCount outcome latency job > 0 ∧
        erroredCount outcome latency job = job.inputs.length) := by
      rintro ⟨-, he⟩
      omega
    rwa [if_neg hnc] at hst

/-- Witness for the amended C3: a two-item job with one errored item
drains to `completed` with summary `"1/2 items failed"`. -/
theorem drain_terminal_status_witness :
    (∃ M, (ProcessJob outcomeC3w (fun _ => 2) (.ok "u") [1, 0] worldC3w
            jobC3w).1.uploadCalls
        = worldC3w.uploadCalls ++ [(jobC3w.id, M)])
    ∧ ∀ r, (ProcessJob outcomeC3w (fun _ => 2) (.ok "u") [1, 0] worldC3w
              jobC3w).1.store.getJob jobC3w.id
            = .ok r →
        r.resultURL = "u"
        ∧ (r.status = .statusFailed ↔
            erroredCount outcomeC3w (fun _ => 2) jobC3w > 0 ∧
            erroredCount outcomeC3w (fun _ => 2) jobC3w
              = jobC3w.inputs.length)
        ∧ (erroredCount outcomeC3w (fun _ => 2) jobC3w < jobC3w.inputs.length →
            r.status = .statusCompleted)
        ∧ r.errorMsg
            = (if erroredCount outcomeC3w (fun _ => 2) jobC3w > 0 then
                toString (erroredCount outcomeC3w (fun _ => 2) jobC3w) ++ "/"
                  ++ toString jobC3w.totalItems ++ " items failed"
               else "") :=
  drain_terminal_status outcomeC3w (fun _ => 2) "u" [1, 0] worldC3w jobC3w
    (by decide) rfl

/-- **C4** (amended).  Every backend call whose `executeRequest` result
is an error — transport errors and **any** non-200 status, 4xx included —
is counted by the circuit breaker: through a closed breaker inside its
counting window, the error propagates to the caller and either
`TotalFailures` increments (breaker still closed) or, when the counters
satisfy the trip predicate, the breaker opens. -/
theorem breaker_failure_accounting (b : Breaker) (now : Int)
    (outcome : HttpOutcome) (raw : String)
    (hclosed : b.state = .stateClosed)
    (hwindow : ∀ e, b.expiry = some e → ¬ e < now)
    (hfail : (executeRequest outcome raw).isOk = false) :
    (b.execute now (executeRequest outcome raw)).2 = executeRequest outcome raw
    ∧ (if readyToTrip (b.counts.onRequest.onFailure)
       then (b.execute now (executeRequest outcome raw)).1.state = .stateOpen
       else (b.execute now (executeRequest outcome raw)).1.counts.totalFailures
              = b.counts.totalFailures + 1
            ∧ (b.execute now (executeRequest outcome raw)).1.state
                = .stateClosed) := by
  obtain ⟨bst, bcounts, bgen, bexp⟩ := b
  dsimp only at hclosed hwindow ⊢
  subst hclosed
  have hcs : ∀ c : CBCounts,
      (Breaker.mk .stateClosed c bgen bexp).currentState now
        = (Breaker.mk .stateClosed c bgen bexp, .stateClosed, bgen) := by
    intro c
    unfold Breaker.currentState
    dsimp only
    cases hx : bexp with
    | none => rfl
    | some e =>
        dsimp only
        rw [if_neg (hwindow e hx)]
  cases hexec : executeRequest outcome raw with
  | ok v =>
      rw [hexec] at hfail
      simp [Except.isOk, Except.toBool] at hfail
  | error msg =>
      unfold Breaker.execute Breaker.beforeRequest
      rw [hcs bcounts]
      dsimp only
      unfold Breaker.afterRequest
      rw [hcs bcounts.onRequest]
      dsimp only
      rw [if_neg (show ¬ bgen ≠ bgen from fun h => h rfl)]
      have hko : (Except.error msg : Except String JsonObj).isOk = false := rfl
      rw [hko]
      rw [if_neg (show ¬ false = true by decide)]
      unfold Breaker.onFailure
      dsimp only
      refine ⟨rfl, ?_⟩
      by_cases htrip : readyToTrip (bcounts.onRequest.onFailure)
      · rw [if_pos htrip, if_pos htrip]
        unfold Breaker.setState
        rw [if_neg (show ¬ (CBState.stateClosed = CBState.stateOpen) by decide)]
        rfl
      · rw [if_neg htrip, if_neg htrip]
        exact ⟨rfl, rfl⟩

/-- Witness for the amended C4: a 400 response through a fresh breaker is
surfaced as an error and increments `TotalFailures` from 0 to 1. -/
theorem breaker_failure_accounting_witness :
    (newBreaker.execute 0 (executeRequest (.resp 400 (.ok [])) "Bad Request")).2
        = executeRequest (.resp 400 (.ok [])) "Bad Request"
    ∧ (if readyToTrip (newBreaker.counts.onRequest.onFailure)
       then (newBreaker.execute 0
              (executeRequest (.resp 400 (.ok [])) "Bad Request")).1.state
            = .stateOpen
       else (newBreaker.execute 0
              (executeRequest (.resp 400 (.ok []))
                "Bad Request")).1.counts.totalFailures
              = newBreaker.counts.totalFailures + 1
            ∧ (newBreaker.execute 0
                (executeRequest (.resp 400 (.ok [])) "Bad Request")).1.state
                = .stateClosed) :=
  breaker_failure_accounting newBreaker 0 (.resp 400 (.ok [])) "Bad Request"
    rfl (fun e he => by cases he; decide) (by decide)

theorem routeRequest_unknown (r : ModelRouter) (model version : String)
    (sel : Nat) (now : Int) (outcome : HttpOutcome) (raw : String)
    (hempty : r.backendsOf model version = []) :
    ∃ err, r.routeRequest model version sel now outcome raw = (r, .error err) := by
  unfold ModelRouter.routeRequest
  unfold ModelRouter.backendsOf at hempty
  cases hr1 : r.backends.lookup model with
  | none => exact ⟨_, rfl⟩
  | some versions =>
      rw [hr1] at hempty
      dsimp only [Option.getD_some] at hempty
      dsimp only
      cases hr2 : versions.lookup version with
      | none => exact ⟨_, rfl⟩
      | some backends =>
          rw [hr2] at hempty
          dsimp only [Option.getD_some] at hempty
          dsimp only
          subst hempty
          exact ⟨_, rfl⟩

/-- **C7** (amended).  A synchronous inference request naming a
(model, version) that has no registry entry fails with an unambiguous
unknown-target error, but it is surfaced to the client as HTTP **503**
(body `{"error": "inference failed"}`), not 404: the route handler maps
every `RouteRequest` error to 503, and the gateway mirrors the router's
non-200 status. -/
theorem unknown_target_503 (r : ModelRouter) (model version : String)
    (input : JsonObj) (rid : String) (sel : Nat) (now : Int)
    (outcome : HttpOutcome) (raw : String) (lat : Int)
    (hm : model ≠ "") (hv : version ≠ "")
    (hempty : r.backendsOf model version = []) :
    (realTimeInference r
        { model := some model, version := some version, input := some input }
        rid sel now outcome raw lat).2
      = ⟨503, [("error", "inference failed")]⟩ := by
  obtain ⟨err, hroute⟩ :=
    routeRequest_unknown r model version sel now outcome raw hempty
  simp only [realTimeInference, bindInferBody, routeInference, bindRouteBody,
    Option.getD, if_neg hm, if_neg hv, hroute]
  rfl

/-- Witness for the amended C7: the empty registry surfaces an unknown
model as 503. -/
theorem unknown_target_503_witness :
    (realTimeInference newModelRouter
        { model := some "nope", version := some "v1",
          input := some [("data", "1")] }
        "req-1" 0 0 (.resp 200 (.ok [])) "" 7).2
      = ⟨503, [("error", "inference failed")]⟩ :=
  unknown_target_503 newModelRouter "nope" "v1" [("data", "1")] "req-1" 0 0
    (.resp 200 (.ok [])) "" 7 (by decide) (by decide) rfl

end AIPlatform
